import Mathlib

/-!
Verification of `email_reply_generator.py`: a shallow embedding of the
application's orchestration logic (input validation, prompt construction,
the chat-completion request, result and error delivery, clearing, clipboard
copy, and the startup credential check), together with theorems settling the
specification's claims about it.

The Tk widgets are modelled by their string contents; Python exceptions by
`Except`; the external chat-completion service by an explicit function
argument; and each dispatch to the service is logged so that "exactly one
call, no retry" is visible in the model.
-/

/-- Whitespace test used by Python's `str.strip()`: CPython strips every
character whose `Py_UNICODE_ISSPACE` is true, i.e. the ASCII whitespace
controls 09-0D, the separator controls 1C-1F, the space, next line (U+0085),
no-break space (U+00A0), ogham space mark (U+1680), the typographic spaces
U+2000-200A, line and paragraph separators (U+2028, U+2029), narrow no-break
space (U+202F), medium mathematical space (U+205F) and ideographic space
(U+3000). -/
def pyIsSpace (c : Char) : Bool :=
  let n := c.toNat
  (0x09 ≤ n && n ≤ 0x0d) || n = 0x20 || (0x1c ≤ n && n ≤ 0x1f) ||
  n = 0x85 || n = 0xa0 || n = 0x1680 ||
  (0x2000 ≤ n && n ≤ 0x200a) ||
  n = 0x2028 || n = 0x2029 || n = 0x202f || n = 0x205f || n = 0x3000

/-- Removal of trailing whitespace from a list of characters. -/
def rstripData (l : List Char) : List Char :=
  (l.reverse.dropWhile pyIsSpace).reverse

/-- Removal of leading and trailing whitespace from a list of characters. -/
def pyStripData (l : List Char) : List Char :=
  (rstripData l).dropWhile pyIsSpace

/-- Python's `str.strip()` with no argument: removes leading and trailing
Unicode whitespace. -/
def pyStrip (s : String) : String :=
  ⟨pyStripData s.data⟩

/-- Reading a Tk `Text` widget with `get("1.0", tk.END)` yields the stored
contents followed by the automatic terminal newline that Tk maintains at the
end of every text buffer. -/
def textGetEnd (stored : String) : String := stored ++ "\n"

/-- One message of a chat-completion conversation, as passed in the
`messages` list of `openai.chat.completions.create`. -/
structure ChatMessage where
  role : String
  content : String
deriving DecidableEq, Repr

/-- One candidate of a chat-completion response (`response.choices[i]`). -/
structure Choice where
  message : ChatMessage
deriving DecidableEq, Repr

/-- A chat-completion response: its list of candidates. -/
structure ChatCompletion where
  choices : List Choice
deriving DecidableEq, Repr

/-- The payload of one `chat.completions.create` call. The source passes
only `model` and `messages` (source lines 154-160); no sampling parameter
appears in the call, so none is part of the request type. -/
structure ChatRequest where
  model : String
  messages : List ChatMessage
deriving DecidableEq, Repr

/-- The external model service: a request either returns a completion or
raises, with the exception's message as the error value. -/
abbrev Service := ChatRequest → Except String ChatCompletion

/-- Prompt construction and request assembly of `generate_email_reply`
(source lines 150-160): the instruction prompt with the tone interpolated,
the content prompt carrying the (already stripped) email text behind the
fixed prefix, the fixed model identifier, and the two ordered messages. -/
def buildRequest (email_content tone : String) : ChatRequest :=
  { model := "gpt-4o-mini"
    messages :=
      [ { role := "system"
          content := "Rephrase the following email in a " ++ tone ++ " tone." }
      , { role := "user"
          content := "Email content: " ++ email_content } ] }

/-- Embedding of `generate_email_reply` (source lines 139-163). The second
component logs every request dispatched to the service: the body performs
exactly one call and the `except` clause re-raises instead of retrying, so
the log is always a singleton. A Python `IndexError` out of
`response.choices[0]` on an empty candidate list is caught by the same
`except Exception` clause and wrapped like any other failure. -/
def generate_email_reply (svc : Service) (email_content tone : String) :
    Except String String × List ChatRequest :=
  let req := buildRequest email_content tone
  match svc req with
  | .ok response =>
      match response.choices with
      | c :: _ => (.ok c.message.content, [req])
      | [] => (.error ("OpenAI API error: " ++ "list index out of range"), [req])
  | .error e => (.error ("OpenAI API error: " ++ e), [req])

/-- Observable state of the application: the two text regions, the tone
selector, the status line, whether the generate control is enabled, and the
system clipboard. -/
structure AppState where
  email_input : String
  tone_var : String
  reply_output : String
  status_var : String
  generate_enabled : Bool
  clipboard : String
deriving DecidableEq, Repr

/-- Embedding of `_update_reply` (source lines 125-132): replaces the output
region's contents with the reply, re-enables the generate control and sets
the success status. -/
def update_reply (s : AppState) (reply : String) : AppState :=
  { s with reply_output := reply
           generate_enabled := true
           status_var := "Reply generated successfully" }

/-- Embedding of `_show_error` (source lines 134-137): sets the status line
to the message behind the fixed `Error: ` prefix and re-enables the generate
control; no other field is touched. -/
def show_error (s : AppState) (error_message : String) : AppState :=
  { s with status_var := "Error: " ++ error_message
           generate_enabled := true }

/-- Embedding of `clear_fields` (source lines 165-171): empties both text
regions and resets the status line. -/
def clear_fields (s : AppState) : AppState :=
  { s with email_input := ""
           reply_output := ""
           status_var := "Fields cleared" }

/-- Embedding of `copy_to_clipboard` (source lines 173-177): clears the
clipboard, then appends the output widget's contents as read by
`get("1.0", tk.END)`, and sets the status line. -/
def copy_to_clipboard (s : AppState) : AppState :=
  { s with clipboard := textGetEnd s.reply_output
           status_var := "Copied to clipboard" }

/-- Embedding of `_process_reply` (source lines 115-123) together with the
delivery scheduled through `root.after`: on success the reply goes to
`_update_reply`, on failure the exception's message goes to `_show_error`. -/
def process_reply (svc : Service) (s : AppState) (email_content tone : String) :
    AppState × List ChatRequest :=
  match generate_email_reply svc email_content tone with
  | (.ok reply, reqs) => (update_reply s reply, reqs)
  | (.error e, reqs) => (show_error s e, reqs)

/-- Outcome of one click of the generate control, with the background call
run to completion: the final state, the log of service requests made on
behalf of the click, and whether a background thread was started. -/
structure StepResult where
  state : AppState
  requests : List ChatRequest
  thread_started : Bool
deriving DecidableEq, Repr

/-- Embedding of `generate_reply` (source lines 99-113), with the background
thread run to completion: reads the input widget (Tk appends the terminal
newline), strips it, rejects empty input synchronously without starting a
thread, and otherwise disables the control, shows the busy status and
dispatches the request. -/
def generate_reply (svc : Service) (s : AppState) : StepResult :=
  let email_content := pyStrip (textGetEnd s.email_input)
  let tone := s.tone_var
  if email_content = "" then
    { state := { s with status_var := "Error: Please enter email content" }
      requests := []
      thread_started := false }
  else
    let busy := { s with generate_enabled := false
                         status_var := "Generating reply..." }
    let done := process_reply svc busy email_content tone
    { state := done.1, requests := done.2, thread_started := true }

/-- Outcome of launching the application: whether `root.mainloop()` was
reached, and the startup error message if initialization raised. -/
structure MainOutcome where
  mainloop_entered : Bool
  startup_error : Option String
deriving DecidableEq, Repr

/-- Embedding of the credential check in `EmailReplyGeneratorApp.__init__`
(source lines 26-28): `os.getenv` yields `none` when the variable is absent
from the process environment (after `load_dotenv`), and Python's
`if not api_key` also treats an empty string as missing. -/
def app_init_key_check (env_key : Option String) : Except String Unit :=
  match env_key with
  | none =>
      .error "No OpenAI API key found. Please set OPENAI_API_KEY in your .env file."
  | some k =>
      if k = "" then
        .error "No OpenAI API key found. Please set OPENAI_API_KEY in your .env file."
      else
        .ok ()

/-- Embedding of `main` (source lines 180-184): constructing the application
runs the credential check; a `ValueError` raised there propagates uncaught,
so `root.mainloop()` is reached only when initialization succeeds. -/
def main_launch (env_key : Option String) : MainOutcome :=
  match app_init_key_check env_key with
  | .error msg => { mainloop_entered := false, startup_error := some msg }
  | .ok _ => { mainloop_entered := true, startup_error := none }

/-- Application state right after `__init__`: the placeholder text in the
input region, the default tone, empty output, status `Ready`. -/
def initState : AppState :=
  { email_input := "Enter the email you want to reply to here..."
    tone_var := "formal"
    reply_output := ""
    status_var := "Ready"
    generate_enabled := true
    clipboard := "" }

/-- Stub service that always fails with a transport error. -/
def svcFail : Service := fun _ => .error "Connection error."

/-- Stub service that always answers with a single candidate. -/
def svcOk : Service := fun _ =>
  .ok { choices :=
          [ { message := { role := "assistant"
                           content := "Sure, how about Friday?" } } ] }

/-- A state whose input has surrounding whitespace around a single letter. -/
def paddedState : AppState :=
  { initState with email_input := " a " }

/-- A state whose input region holds only whitespace. -/
def wsState : AppState :=
  { initState with email_input := "   " }

theorem rstripData_concat_ws (l : List Char) (c : Char) (hc : pyIsSpace c = true) :
    rstripData (l ++ [c]) = rstripData l := by
  simp [rstripData, List.reverse_append, hc]

theorem pyStripData_concat_ws (l : List Char) (c : Char) (hc : pyIsSpace c = true) :
    pyStripData (l ++ [c]) = pyStripData l := by
  unfold pyStripData
  rw [rstripData_concat_ws l c hc]

/-- Stripping the widget read is the same as stripping the stored text: the
terminal newline that Tk appends is whitespace. -/
theorem pyStrip_textGetEnd (s : String) : pyStrip (textGetEnd s) = pyStrip s := by
  unfold pyStrip
  have h : (textGetEnd s).data = s.data ++ ['\n'] := rfl
  rw [h, pyStripData_concat_ws s.data '\n' (by decide)]

/-- The service is consulted exactly once per `generate_email_reply` call,
on the assembled request; in particular no retry happens on failure. -/
theorem generate_email_reply_requests (svc : Service) (ec tone : String) :
    (generate_email_reply svc ec tone).2 = [buildRequest ec tone] := by
  unfold generate_email_reply
  cases h : svc (buildRequest ec tone) with
  | ok r => cases hc : r.choices <;> simp [h, hc]
  | error e => simp [h]

/-- The request log of the background processing step is that of the
generation call it wraps. -/
theorem process_reply_requests (svc : Service) (s : AppState) (ec tone : String) :
    (process_reply svc s ec tone).2 = (generate_email_reply svc ec tone).2 := by
  unfold process_reply
  rcases h : generate_email_reply svc ec tone with ⟨res, reqs⟩
  cases res <;> simp

/-- C2: for input that is empty or all whitespace, the click is rejected
synchronously: the Generation Client is never invoked, no background thread
is started, and the status line immediately shows the validation error. -/
theorem c2_empty_input_rejected (svc : Service) (s : AppState)
    (h : pyStrip (textGetEnd s.email_input) = "") :
    generate_reply svc s =
      { state := { s with status_var := "Error: Please enter email content" }
        requests := []
        thread_started := false } := by
  simp [generate_reply, h]

theorem c2_witness :
    pyStrip (textGetEnd wsState.email_input) = "" ∧
    generate_reply svcFail wsState =
      { state := { wsState with status_var := "Error: Please enter email content" }
        requests := []
        thread_started := false } :=
  ⟨by decide, c2_empty_input_rejected svcFail wsState (by decide)⟩

/-- C3 counterexample: rendering a result and then copying does not place
exactly that text on the clipboard — the widget read appends the Tk terminal
newline, an extra character the claim rules out. -/
theorem c3_counterexample :
    (copy_to_clipboard (update_reply initState "Sure, how about Friday?")).clipboard ≠
      "Sure, how about Friday?" := by
  decide

/-- C3 amended: `render_result(text)` followed by `copy_output()` places
`text` followed by exactly one terminal newline on the clipboard; apart from
that appended newline no character is added or removed. -/
theorem c3_clipboard_roundtrip (s : AppState) (text : String) :
    (copy_to_clipboard (update_reply s text)).clipboard = text ++ "\n" := rfl

/-- C6: both terminal deliveries — result delivery through `_update_reply`
and error delivery through `_show_error` — leave the generate control
re-enabled, returning the request state machine to Idle. -/
theorem c6_terminal_states_reenable (s : AppState) (reply msg : String) :
    (update_reply s reply).generate_enabled = true ∧
    (show_error s msg).generate_enabled = true :=
  ⟨rfl, rfl⟩

/-- C7: with the API key absent from the process environment, application
construction fails with the descriptive startup message and the event loop
is never entered. -/
theorem c7_missing_api_key_fatal :
    main_launch none =
      { mainloop_entered := false
        startup_error :=
          some "No OpenAI API key found. Please set OPENAI_API_KEY in your .env file." } :=
  rfl

/-- C8 counterexample: the status line is not set to the error message
itself — the code writes it behind the fixed `Error: ` prefix. -/
theorem c8_counterexample :
    (show_error initState "boom").status_var ≠ "boom" := by
  decide

/-- C8 amended: `render_error(message)` leaves both text regions untouched,
re-enables the generate control, and sets the status line to the error
message prefixed with `Error: `. -/
theorem c8_show_error_frame (s : AppState) (msg : String) :
    (show_error s msg).reply_output = s.reply_output ∧
    (show_error s msg).email_input = s.email_input ∧
    (show_error s msg).generate_enabled = true ∧
    (show_error s msg).status_var = "Error: " ++ msg :=
  ⟨rfl, rfl, rfl, rfl⟩

/-- C9: clearing is idempotent — a second `clear_fields` changes nothing —
and after one call both regions are empty and the status is reset. -/
theorem c9_clear_idempotent (s : AppState) :
    clear_fields (clear_fields s) = clear_fields s ∧
    (clear_fields s).email_input = "" ∧
    (clear_fields s).reply_output = "" ∧
    (clear_fields s).status_var = "Fields cleared" :=
  ⟨rfl, rfl, rfl, rfl⟩

/-- C4: when the service call raises, `generate_email_reply` re-raises a
single wrapped error whose message carries the underlying message behind the
fixed `OpenAI API error: ` prefix, and the request log stays a singleton —
no retry is attempted. -/
theorem c4_service_error_wrapped (svc : Service) (ec tone e : String)
    (h : svc (buildRequest ec tone) = .error e) :
    generate_email_reply svc ec tone =
      (.error ("OpenAI API error: " ++ e), [buildRequest ec tone]) := by
  unfold generate_email_reply
  simp [h]

theorem c4_witness :
    generate_email_reply svcFail "hello" "formal" =
      (.error ("OpenAI API error: " ++ "Connection error."),
        [buildRequest "hello" "formal"]) :=
  c4_service_error_wrapped svcFail "hello" "formal" "Connection error." rfl

/-- C5: every request sent carries the fixed model identifier and exactly
the two ordered messages — the instruction with the system role first, the
content with the user role second — and nothing else; on a successful
response the result is the first candidate's text content, unmodified. -/
theorem c5_request_shape (svc : Service) (ec tone : String)
    (resp : ChatCompletion) (c : Choice) (cs : List Choice)
    (hresp : svc (buildRequest ec tone) = .ok resp)
    (hchoices : resp.choices = c :: cs) :
    (generate_email_reply svc ec tone).2 = [buildRequest ec tone] ∧
    (buildRequest ec tone).model = "gpt-4o-mini" ∧
    (buildRequest ec tone).messages =
      [ ⟨"system", "Rephrase the following email in a " ++ tone ++ " tone."⟩
      , ⟨"user", "Email content: " ++ ec⟩ ] ∧
    (generate_email_reply svc ec tone).1 = .ok c.message.content := by
  refine ⟨generate_email_reply_requests svc ec tone, rfl, rfl, ?_⟩
  unfold generate_email_reply
  simp [hresp, hchoices]

theorem c5_witness :
    (generate_email_reply svcOk "hi" "casual").2 = [buildRequest "hi" "casual"] ∧
    (buildRequest "hi" "casual").model = "gpt-4o-mini" ∧
    (buildRequest "hi" "casual").messages =
      [ ⟨"system", "Rephrase the following email in a casual tone."⟩
      , ⟨"user", "Email content: hi"⟩ ] ∧
    (generate_email_reply svcOk "hi" "casual").1 = .ok "Sure, how about Friday?" :=
  c5_request_shape svcOk "hi" "casual"
    { choices := [ { message := { role := "assistant"
                                  content := "Sure, how about Friday?" } } ] }
    { message := { role := "assistant", content := "Sure, how about Friday?" } }
    [] rfl rfl

/-- A state with a casual tone and surrounding whitespace in the input. -/
def paddedCasualState : AppState :=
  { initState with email_input := "  hello \t ", tone_var := "casual" }

theorem dropWhile_ne_self_head {α : Type} (p : α → Bool) (m : List α)
    (h : m.dropWhile p ≠ m) : ∃ a t, m = a :: t ∧ p a = true := by
  cases m with
  | nil => simp at h
  | cons a t =>
    cases hp : p a with
    | true => exact ⟨a, t, rfl, hp⟩
    | false =>
      rw [List.dropWhile_cons_of_neg (by simp [hp])] at h
      exact absurd rfl h

theorem head?_dropWhile_false {α : Type} (p : α → Bool) (m : List α) (b : α)
    (h : (m.dropWhile p).head? = some b) : p b = false := by
  have hm := List.head?_dropWhile_not p m
  rw [h] at hm
  exact hm

/-- The content prompt can never coincide with the raw input text: the raw
text would have to start with the non-whitespace prefix and simultaneously
end in the whitespace that stripping removed, while the stripped text ends
in a non-whitespace character. -/
theorem prefixed_strip_ne (x : String) (hne : pyStrip x ≠ "") :
    "Email content: " ++ pyStrip x ≠ x := by
  intro heq
  have hd : "Email content: ".data ++ pyStripData x.data = x.data := by
    have h1 := congrArg String.data heq
    simpa [pyStrip] using h1
  have hlt_ne : pyStripData x.data ≠ [] := by
    intro hn
    exact hne (congrArg String.mk hn)
  have hr_ne : rstripData x.data ≠ [] := by
    intro hn
    apply hlt_ne
    show (rstripData x.data).dropWhile pyIsSpace = []
    rw [hn]
    rfl
  have hpre : rstripData x.data <+: x.data := by
    have h2 := List.dropWhile_suffix (l := x.data.reverse) pyIsSpace
    have h3 := List.reverse_prefix.mpr h2
    simpa [rstripData] using h3
  obtain ⟨tail, htail⟩ := hpre
  obtain ⟨a, r', hr_cons⟩ : ∃ a r', rstripData x.data = a :: r' := by
    cases hc : rstripData x.data with
    | nil => exact absurd hc hr_ne
    | cons a r' => exact ⟨a, r', rfl⟩
  have hhead : a = 'E' := by
    have h4 : x.data.head? = some 'E' := by
      rw [← hd]
      rfl
    rw [← htail, hr_cons] at h4
    simpa using h4
  have hlt_eq : pyStripData x.data = rstripData x.data := by
    show (rstripData x.data).dropWhile pyIsSpace = rstripData x.data
    rw [hr_cons]
    exact List.dropWhile_cons_of_neg (by simp [hhead]; decide)
  have hP : "Email content: ".data.length = 15 := rfl
  have hlen : 15 + (pyStripData x.data).length = x.data.length := by
    have h5 := congrArg List.length hd
    rw [List.length_append, hP] at h5
    exact h5
  have hdw_ne : x.data.reverse.dropWhile pyIsSpace ≠ x.data.reverse := by
    intro hdw
    have h6 : (rstripData x.data).length = x.data.length := by
      unfold rstripData
      rw [hdw]
      simp
    rw [← hlt_eq] at h6
    omega
  obtain ⟨b, rt, hrev, hpb⟩ := dropWhile_ne_self_head pyIsSpace x.data.reverse hdw_ne
  have hgl1 : x.data.getLast? = some b := by
    rw [← List.head?_reverse, hrev]
    rfl
  obtain ⟨b2, hb2⟩ : ∃ b2, (x.data.reverse.dropWhile pyIsSpace).head? = some b2 := by
    cases hcc : (x.data.reverse.dropWhile pyIsSpace).head? with
    | none =>
      rw [List.head?_eq_none_iff] at hcc
      refine absurd ?_ hr_ne
      unfold rstripData
      rw [hcc]
      rfl
    | some bb => exact ⟨bb, rfl⟩
  have hpb2 : pyIsSpace b2 = false :=
    head?_dropWhile_false pyIsSpace x.data.reverse b2 hb2
  have hgl2 : x.data.getLast? = some b2 := by
    rw [← hd, List.getLast?_append]
    have hltl : (pyStripData x.data).getLast? = some b2 := by
      rw [hlt_eq]
      unfold rstripData
      rw [List.getLast?_reverse]
      exact hb2
    rw [hltl]
    rfl
  rw [hgl1] at hgl2
  have hbb : b = b2 := Option.some.inj hgl2
  rw [hbb, hpb2] at hpb
  exact Bool.noConfusion hpb

/-- For accepted input, the click dispatches exactly the one assembled
request, built from the stripped input text and the selected tone. -/
theorem generate_reply_requests_nonempty (svc : Service) (s : AppState)
    (h : pyStrip (textGetEnd s.email_input) ≠ "") :
    (generate_reply svc s).requests =
      [buildRequest (pyStrip s.email_input) s.tone_var] := by
  have h' : pyStrip s.email_input ≠ "" := by
    rwa [pyStrip_textGetEnd] at h
  simp [generate_reply, h', process_reply_requests, generate_email_reply_requests,
    pyStrip_textGetEnd]

/-- C1 counterexample: with the input region holding the text with
surrounding whitespace held by `paddedState` and the default formal tone,
the click dispatches one call whose content part is built from the stripped
text, and that content part does not contain the literal input text. -/
theorem c1_counterexample :
    (generate_reply svcFail paddedState).requests =
      [ { model := "gpt-4o-mini"
          messages :=
            [ ⟨"system", "Rephrase the following email in a formal tone."⟩
            , ⟨"user", "Email content: a"⟩ ] } ] ∧
    ¬ (" a ".data <:+: "Email content: a".data) := by
  refine ⟨by decide, by decide⟩

/-- C1 amended: for input that is non-empty after trimming, the click
dispatches exactly one generation call whose two prompt parts are exactly
the tone instruction and a string containing the literally trimmed email
text (for input without surrounding whitespace this is the literal input
itself). -/
theorem c1_prompt_parts (svc : Service) (s : AppState)
    (h : pyStrip (textGetEnd s.email_input) ≠ "") :
    (generate_reply svc s).requests =
      [buildRequest (pyStrip s.email_input) s.tone_var] ∧
    ((generate_reply svc s).requests.map fun r => r.messages.map ChatMessage.content) =
      [[ "Rephrase the following email in a " ++ s.tone_var ++ " tone."
       , "Email content: " ++ pyStrip s.email_input ]] ∧
    (pyStrip s.email_input).data <:+:
      ("Email content: " ++ pyStrip s.email_input).data := by
  have hreq := generate_reply_requests_nonempty svc s h
  refine ⟨hreq, ?_, ?_⟩
  · rw [hreq]
    rfl
  · rw [String.data_append]
    exact (List.suffix_append _ _).isInfix

theorem c1_witness :
    pyStrip (textGetEnd paddedState.email_input) ≠ "" ∧
    ((generate_reply svcFail paddedState).requests =
        [buildRequest (pyStrip paddedState.email_input) paddedState.tone_var] ∧
      ((generate_reply svcFail paddedState).requests.map
          fun r => r.messages.map ChatMessage.content) =
        [[ "Rephrase the following email in a " ++ paddedState.tone_var ++ " tone."
         , "Email content: " ++ pyStrip paddedState.email_input ]] ∧
      (pyStrip paddedState.email_input).data <:+:
        ("Email content: " ++ pyStrip paddedState.email_input).data) :=
  ⟨by decide, c1_prompt_parts svcFail paddedState (by decide)⟩

/-- C10: whenever a request is sent, its content-part message equals the
fixed prefix `Email content: ` followed by the input text with surrounding
whitespace trimmed — in particular it is never the raw input text, and the
input's surrounding whitespace never reaches the service. -/
theorem c10_content_part_trimmed (svc : Service) (s : AppState)
    (h : pyStrip (textGetEnd s.email_input) ≠ "") :
    ((generate_reply svc s).requests.map
        fun r => (r.messages.map ChatMessage.content).getLast?) =
      [some ("Email content: " ++ pyStrip s.email_input)] ∧
    "Email content: " ++ pyStrip s.email_input ≠ s.email_input := by
  have h' : pyStrip s.email_input ≠ "" := by
    rwa [pyStrip_textGetEnd] at h
  refine ⟨?_, prefixed_strip_ne s.email_input h'⟩
  rw [generate_reply_requests_nonempty svc s h]
  rfl

theorem c10_witness :
    pyStrip (textGetEnd paddedCasualState.email_input) ≠ "" ∧
    (((generate_reply svcOk paddedCasualState).requests.map
        fun r => (r.messages.map ChatMessage.content).getLast?) =
      [some ("Email content: " ++ pyStrip paddedCasualState.email_input)] ∧
    "Email content: " ++ pyStrip paddedCasualState.email_input ≠
      paddedCasualState.email_input) :=
  ⟨by decide, c10_content_part_trimmed svcOk paddedCasualState (by decide)⟩
